import Mathlib

/-!
Verification of the ingestor pipeline (Controle-Epidemiologico/ingestor).

Shallow embedding of the core data model and operations:
* `schemas/storage.py` — `StorageKey` with `__post_init__` validation,
  `full_path`, `from_path`;
* `schemas/models/h5n1.py` — `AvianFluCase` and nested models with their
  pydantic field validators, and `to_storage_key`;
* `connectors/data/transformer.py` — `model_to_dataframe`,
  `dataframe_to_models`;
* `connectors/data/clients/minio.py` — object listing / parquet URI listing;
* `connectors/data/clients/duck_db.py` — `read_external_parquet`,
  `get_table_columns`, `_get_primary_key`, `insert_dataframe`;
* `connectors/data/orchestrator.py` — `load_storage_to_database`.

Machine integers are modelled as `Nat`/`Int`; Python floats (only the
latitude/longitude fields) are modelled as exact rationals (`Rat`), which
agrees with IEEE semantics for pass-through, equality and the range
comparisons used here (NaN payloads are outside the model).  Fallible
Python code is modelled with `Except PyErr`; I/O failures of the external
collaborators (S3 / network) are modelled as explicit failure fields of the
collaborator state.
-/

/-- Python exception values observed by the embedded code.  Each constructor
corresponds to one concrete `raise` site (or library exception) of the
source.  `synchronizationError` is modelled from the spec: the spec's §7
error taxonomy names a `SynchronizationError` wrapper for failures of the
synchronize operation, but no such class exists anywhere in the source,
which only logs and re-raises the underlying exception; the constructor is
included solely so that statements about the wrapper can be expressed. -/
inductive PyErr where
  /-- `ValueError("Caminho inválido: …")` in `StorageKey.from_path`. -/
  | valueErrorCaminhoInvalido (path : String)
  /-- `ValueError("Categoria inválida: …")` in `StorageKey.from_path`. -/
  | valueErrorCategoriaInvalida (c : String)
  /-- `ValueError("Formato de ano inválido: …")` in `StorageKey.__post_init__`. -/
  | valueErrorFormatoAno (y : String)
  /-- `ValueError("Formato de mês inválido: …")` in `StorageKey.__post_init__`. -/
  | valueErrorFormatoMes (m : String)
  /-- `ValueError("Formato de dia inválido: …")` in `StorageKey.__post_init__`. -/
  | valueErrorFormatoDia (d : String)
  /-- `IndexError` from `parts[i].split("=")[1]` when a segment has no `=`. -/
  | indexError
  /-- `minio.error.S3Error` from the object-store client. -/
  | s3Error (msg : String)
  /-- DuckDB I/O error while reading remote parquet files. -/
  | ioError (msg : String)
  /-- DuckDB catalog error: unknown table / unresolved replacement-scan name. -/
  | catalogError (name : String)
  /-- DuckDB binder error: a referenced column does not exist. -/
  | binderError (col : String)
  /-- DuckDB binder error: an unqualified column resolves in both join sides. -/
  | ambiguousColumn (col : String)
  /-- pandas: `bool(DataFrame)` raises `ValueError("The truth value of a
  DataFrame is ambiguous…")` unconditionally. -/
  | valueErrorDataFrameTruth
  /-- pydantic `ValidationError` for the named field. -/
  | validationError (field : String)
  /-- Modelled from the spec: `SynchronizationError` wrapping an underlying
  cause (spec §7).  No raise site in the source produces it. -/
  | synchronizationError (cause : PyErr)
deriving DecidableEq, Repr

/-- `true` exactly on the spec's `SynchronizationError` wrapper. -/
def PyErr.isSyncError : PyErr → Bool
  | .synchronizationError _ => true
  | _ => false

instance {α β : Type} [DecidableEq α] [DecidableEq β] :
    DecidableEq (Except α β)
  | .ok a, .ok b =>
    if h : a = b then .isTrue (by rw [h]) else .isFalse (by simp [h])
  | .ok _, .error _ => .isFalse (by simp)
  | .error _, .ok _ => .isFalse (by simp)
  | .error a, .error b =>
    if h : a = b then .isTrue (by rw [h]) else .isFalse (by simp [h])

/-- `schemas/storage.py`: `class BucketName(StrEnum)`. -/
inductive BucketName where
  | RAW
deriving DecidableEq, Repr

/-- `StrEnum` member value. -/
def BucketName.value : BucketName → String
  | .RAW => "raw"

/-- `schemas/storage.py`: `class DataCategory(StrEnum)`. -/
inductive DataCategory where
  | AVIAN_CASES
deriving DecidableEq, Repr

/-- `StrEnum` member value (also its `str()` form used in f-strings). -/
def DataCategory.value : DataCategory → String
  | .AVIAN_CASES => "avian_cases"

/-- `DataCategory(s)`: enum lookup by value; `None` models the
`ValueError` branch. -/
def DataCategory.ofString? (s : String) : Option DataCategory :=
  if s = "avian_cases" then some .AVIAN_CASES else none

/-- Python `str.split(sep)` for a one-character separator, over the
character list: splits at every occurrence, keeping empty pieces, and
always returns at least one piece (`"".split(x) == [""]`). -/
def splitChar (sep : Char) : List Char → List (List Char)
  | [] => [[]]
  | c :: cs =>
    if c = sep then [] :: splitChar sep cs
    else
      match splitChar sep cs with
      | [] => [[c]]
      | w :: ws => (c :: w) :: ws

/-- Python `s.split(sep)` for a one-character separator. -/
def pySplit (s : String) (sep : Char) : List String :=
  (splitChar sep s.data).map (fun l => String.mk l)

/-- Python `lst[i]` on a list of strings: `IndexError` when out of range. -/
def pyIndex (l : List String) (i : Nat) : Except PyErr String :=
  match l.get? i with
  | some s => .ok s
  | none => .error .indexError

/-- Python `s.isdigit()` (the fields involved are ASCII, so ASCII digits
model it exactly here). -/
def strIsdigit (s : String) : Bool :=
  !s.data.isEmpty && s.data.all Char.isDigit

/-- Python `int(s)` on a digit string (all uses in the source are guarded
by `isdigit`). -/
def pyInt (s : String) : Nat :=
  s.data.foldl (fun n c => 10 * n + (c.toNat - 48)) 0

/-- `schemas/storage.py`: `@dataclass class StorageKey` (field record;
the `__post_init__` validation is `StorageKey.mk?` below). -/
structure StorageKey where
  bucket : BucketName
  category : DataCategory
  source : String
  year : String
  month : String
  day : String
  filename : String
deriving DecidableEq, Repr

/-- `__post_init__` year check: `year.isdigit() and len(year) == 4`. -/
def checkYear (y : String) : Bool :=
  strIsdigit y && y.length == 4

/-- `__post_init__` month check: `month.isdigit() and 1 <= int(month) <= 12`. -/
def checkMonth (m : String) : Bool :=
  strIsdigit m && (1 ≤ pyInt m && pyInt m ≤ 12)

/-- `__post_init__` day check: `day.isdigit() and 1 <= int(day) <= 31`. -/
def checkDay (d : String) : Bool :=
  strIsdigit d && (1 ≤ pyInt d && pyInt d ≤ 31)

/-- Dataclass construction `StorageKey(...)` including `__post_init__`:
raises the three `ValueError`s in source order, otherwise yields the key.
In Python no `StorageKey` value escapes construction when a check fails;
in the embedding that is expressed by only ever building keys through
`mk?`. -/
def StorageKey.mk? (bucket : BucketName) (category : DataCategory)
    (source year month day filename : String) : Except PyErr StorageKey :=
  if !checkYear year then .error (.valueErrorFormatoAno year)
  else if !checkMonth month then .error (.valueErrorFormatoMes month)
  else if !checkDay day then .error (.valueErrorFormatoDia day)
  else .ok ⟨bucket, category, source, year, month, day, filename⟩

/-- `__post_init__` succeeded on these fields. -/
def StorageKey.isValid (k : StorageKey) : Bool :=
  checkYear k.year && checkMonth k.month && checkDay k.day

/-- `StorageKey.full_path`:
`f"{category}/{source}/year={year}/month={month}/day={day}/{filename}"`
(`str()` of a `StrEnum` member is its value). -/
def StorageKey.full_path (k : StorageKey) : String :=
  k.category.value ++ "/" ++ k.source ++ "/year=" ++ k.year ++ "/month="
    ++ k.month ++ "/day=" ++ k.day ++ "/" ++ k.filename

/-- `StorageKey.from_path(bucket, path)`: split on `/`; fewer than 6 parts
raises `ValueError("Caminho inválido")`; `parts[2..4].split("=")[1]` raises
`IndexError` when a segment has no `=` (evaluated in order, before the
category test); an unknown leading segment raises
`ValueError("Categoria inválida")`; finally the dataclass constructor runs
`__post_init__`. -/
def StorageKey.from_parts (bucket : BucketName) (path : String)
    (parts : List String) : Except PyErr StorageKey :=
  if parts.length < 6 then .error (.valueErrorCaminhoInvalido path)
  else
    match pyIndex (pySplit (parts.getD 2 "") '=') 1 with
    | .error e => .error e
    | .ok year =>
      match pyIndex (pySplit (parts.getD 3 "") '=') 1 with
      | .error e => .error e
      | .ok month =>
        match pyIndex (pySplit (parts.getD 4 "") '=') 1 with
        | .error e => .error e
        | .ok day =>
          match DataCategory.ofString? (parts.getD 0 "") with
          | none => .error (.valueErrorCategoriaInvalida (parts.getD 0 ""))
          | some category =>
            StorageKey.mk? bucket category (parts.getD 1 "") year month day
              (parts.getD 5 "")

/-- `StorageKey.from_path(bucket, path)`: `parts = path.split("/")`, then
the body above on `parts`. -/
def StorageKey.from_path (bucket : BucketName) (path : String) :
    Except PyErr StorageKey :=
  StorageKey.from_parts bucket path (pySplit path '/')

/-! ### Lemmas about the Python `str.split` model -/

theorem splitChar_no_sep {sep : Char} {w : List Char} (h : sep ∉ w) :
    splitChar sep w = [w] := by
  induction w with
  | nil => rfl
  | cons c cs ih =>
    have hc : c ≠ sep := fun hce => h (hce ▸ List.mem_cons_self c cs)
    have hcs : sep ∉ cs := fun hm => h (List.mem_cons_of_mem c hm)
    simp [splitChar, hc, ih hcs]

theorem splitChar_append {sep : Char} {w rest : List Char} (h : sep ∉ w) :
    splitChar sep (w ++ sep :: rest) = w :: splitChar sep rest := by
  induction w with
  | nil => simp [splitChar]
  | cons c cs ih =>
    have hc : c ≠ sep := fun hce => h (hce ▸ List.mem_cons_self c cs)
    have hcs : sep ∉ cs := fun hm => h (List.mem_cons_of_mem c hm)
    have h1 : splitChar sep ((c :: cs) ++ sep :: rest) =
        (match splitChar sep (cs ++ sep :: rest) with
          | [] => [[c]]
          | w :: ws => (c :: w) :: ws) := by
      simp only [List.cons_append, splitChar, if_neg hc]
      rfl
    rw [h1, ih hcs]

theorem length_splitChar (sep : Char) (l : List Char) :
    (splitChar sep l).length = l.count sep + 1 := by
  induction l with
  | nil => rfl
  | cons c cs ih =>
    by_cases hc : c = sep
    · subst hc
      simp [splitChar, List.count_cons, ih]
    · rcases hsp : splitChar sep cs with _ | ⟨w, ws⟩
      · rw [hsp] at ih
        simp at ih
      · rw [hsp] at ih
        simp only [splitChar, if_neg hc, hsp, List.length_cons] at ih ⊢
        simp [List.count_cons, hc, ih]

/-- Every character of a string passing Python `isdigit` is a digit. -/
theorem strIsdigit_all {s : String} (h : strIsdigit s = true) :
    ∀ c ∈ s.data, c.isDigit := by
  have := (Bool.and_eq_true _ _).mp h
  exact fun c hc => List.all_eq_true.mp this.2 c hc

/-- A digit string contains no `/`. -/
theorem strIsdigit_no_slash {s : String} (h : strIsdigit s = true) :
    '/' ∉ s.data := fun hm => by
  have := strIsdigit_all h _ hm
  simp [Char.isDigit] at this

/-- A digit string contains no `=`. -/
theorem strIsdigit_no_eq {s : String} (h : strIsdigit s = true) :
    '=' ∉ s.data := fun hm => by
  have := strIsdigit_all h _ hm
  simp [Char.isDigit] at this

/-- The digit-string components of a key accepted by `__post_init__`. -/
theorem isValid_digits {k : StorageKey} (hv : k.isValid = true) :
    strIsdigit k.year = true ∧ strIsdigit k.month = true ∧
      strIsdigit k.day = true := by
  unfold StorageKey.isValid checkYear checkMonth checkDay at hv
  simp only [Bool.and_eq_true] at hv
  exact ⟨hv.1.1.1, hv.1.2.1, hv.2.1⟩

/-- Constructing a key whose fields already pass `__post_init__` succeeds
and returns exactly those fields. -/
theorem mk?_of_valid (k : StorageKey) (hv : k.isValid = true) :
    StorageKey.mk? k.bucket k.category k.source k.year k.month k.day
      k.filename = .ok k := by
  unfold StorageKey.isValid at hv
  simp only [Bool.and_eq_true] at hv
  unfold StorageKey.mk?
  simp [hv.1.1, hv.1.2, hv.2]

/-- `pySplit` of `full_path` when neither `source` nor `filename` contains a
slash and the date fields are digit strings: exactly the six built segments. -/
theorem pySplit_full_path (k : StorageKey)
    (hv : k.isValid = true)
    (hs : '/' ∉ k.source.data) (hf : '/' ∉ k.filename.data) :
    pySplit k.full_path '/' =
      [k.category.value, k.source,
       String.mk ('y' :: 'e' :: 'a' :: 'r' :: '=' :: k.year.data),
       String.mk ('m' :: 'o' :: 'n' :: 't' :: 'h' :: '=' :: k.month.data),
       String.mk ('d' :: 'a' :: 'y' :: '=' :: k.day.data),
       k.filename] := by
  obtain ⟨hy, hm, hd⟩ := isValid_digits hv
  have hcat : '/' ∉ k.category.value.data := by
    cases k.category
    decide
  have hdata : k.full_path.data =
      k.category.value.data ++ '/' ::
        (k.source.data ++ '/' ::
          (('y' :: 'e' :: 'a' :: 'r' :: '=' :: k.year.data) ++ '/' ::
            (('m' :: 'o' :: 'n' :: 't' :: 'h' :: '=' :: k.month.data) ++ '/' ::
              (('d' :: 'a' :: 'y' :: '=' :: k.day.data) ++ '/' ::
                k.filename.data)))) := by
    simp [StorageKey.full_path, String.data_append]
  have hyear : '/' ∉ ('y' :: 'e' :: 'a' :: 'r' :: '=' :: k.year.data) := by
    simp only [List.mem_cons, not_or]
    exact ⟨by decide, by decide, by decide, by decide, by decide,
      strIsdigit_no_slash hy⟩
  have hmonth : '/' ∉ ('m' :: 'o' :: 'n' :: 't' :: 'h' :: '=' :: k.month.data) := by
    simp only [List.mem_cons, not_or]
    exact ⟨by decide, by decide, by decide, by decide, by decide, by decide,
      strIsdigit_no_slash hm⟩
  have hday : '/' ∉ ('d' :: 'a' :: 'y' :: '=' :: k.day.data) := by
    simp only [List.mem_cons, not_or]
    exact ⟨by decide, by decide, by decide, by decide,
      strIsdigit_no_slash hd⟩
  unfold pySplit
  rw [hdata, splitChar_append hcat, splitChar_append hs,
    splitChar_append hyear, splitChar_append hmonth, splitChar_append hday,
    splitChar_no_sep hf]
  rfl

/-- Indexing `[1]` into the split of `key ++ "=" ++ v` recovers `v` when
neither side contains `=`. -/
theorem pyIndex_keyval {l w : List Char} {v : String}
    (heq : l = w ++ '=' :: v.data) (hk : '=' ∉ w) (hvv : '=' ∉ v.data) :
    pyIndex (pySplit (String.mk l) '=') 1 = .ok v := by
  unfold pySplit pyIndex
  have hml : (String.mk l).data = l := rfl
  rw [hml, heq, splitChar_append hk, splitChar_no_sep hvv]
  rfl

/-- C3: for every valid `StorageKey` whose `source` and `filename` contain
no `/`, `from_path(bucket, full_path)` reconstructs the key field-by-field. -/
theorem C3_build_parse_roundtrip (k : StorageKey)
    (hv : k.isValid = true)
    (hs : '/' ∉ k.source.data) (hf : '/' ∉ k.filename.data) :
    StorageKey.from_path k.bucket k.full_path = .ok k := by
  obtain ⟨hy, hm, hd⟩ := isValid_digits hv
  have hparts := pySplit_full_path k hv hs hf
  have hmk := mk?_of_valid k hv
  unfold StorageKey.from_path
  rw [hparts]
  simp only [StorageKey.from_parts, List.getD_cons_zero, List.getD_cons_succ,
    List.length_cons, List.length_nil]
  rw [if_neg (by norm_num)]
  rw [pyIndex_keyval (l := 'y' :: 'e' :: 'a' :: 'r' :: '=' :: k.year.data)
        (w := ['y', 'e', 'a', 'r']) rfl (by decide) (strIsdigit_no_eq hy),
      pyIndex_keyval (l := 'm' :: 'o' :: 'n' :: 't' :: 'h' :: '=' :: k.month.data)
        (w := ['m', 'o', 'n', 't', 'h']) rfl (by decide) (strIsdigit_no_eq hm),
      pyIndex_keyval (l := 'd' :: 'a' :: 'y' :: '=' :: k.day.data)
        (w := ['d', 'a', 'y']) rfl (by decide) (strIsdigit_no_eq hd)]
  have hcat : DataCategory.ofString? k.category.value = some k.category := by
    cases k.category
    rfl
  rw [hcat]
  exact hmk

/-- C3 witness: the round-trip at a concrete valid key. -/
def keyC3 : StorageKey :=
  ⟨.RAW, .AVIAN_CASES, "oie_wahis", "2023", "05", "15", "data.parquet"⟩

/-- C3 witness: hypotheses hold and the round-trip identity follows at
`keyC3`. -/
theorem C3_build_parse_roundtrip_witness :
    (keyC3.isValid = true ∧ '/' ∉ keyC3.source.data ∧
      '/' ∉ keyC3.filename.data) ∧
    StorageKey.from_path keyC3.bucket keyC3.full_path = .ok keyC3 :=
  ⟨⟨by decide, by decide, by decide⟩,
    C3_build_parse_roundtrip keyC3 (by decide) (by decide) (by decide)⟩

/-! ### Characterization of `from_path` error behaviour -/

/-- `parts[i]` as the source reads it (total form used in statements). -/
def seg (path : String) (i : Nat) : String :=
  (pySplit path '/').getD i ""

/-- The segment contains an `=` (so `split("=")[1]` does not raise). -/
def hasEq (s : String) : Bool :=
  '=' ∈ s.data

/-- `s.split("=")[1]` as a total function (meaningful when `hasEq s`). -/
def extractVal (s : String) : String :=
  (pySplit s '=').getD 1 ""


/-- Without `=` in the segment, `split("=")[1]` raises `IndexError`. -/
theorem pyIndex_split_no_eq {s : String} (h : hasEq s = false) :
    pyIndex (pySplit s '=') 1 = .error .indexError := by
  have hmem : '=' ∉ s.data := by simpa [hasEq] using h
  have hcount : s.data.count '=' = 0 := List.count_eq_zero.mpr hmem
  have hlen : (pySplit s '=').length = 1 := by
    unfold pySplit
    rw [List.length_map, length_splitChar, hcount]
  unfold pyIndex
  rw [List.get?_eq_none.mpr (by omega)]

/-- With `=` in the segment, `split("=")[1]` returns the second piece. -/
theorem pyIndex_split_has_eq {s : String} (h : hasEq s = true) :
    pyIndex (pySplit s '=') 1 = .ok (extractVal s) := by
  have hmem : '=' ∈ s.data := by simpa [hasEq] using h
  have hcount : 0 < s.data.count '=' := List.count_pos_iff.mpr hmem
  have hlen : 1 < (pySplit s '=').length := by
    unfold pySplit
    rw [List.length_map, length_splitChar]
    omega
  unfold pyIndex extractVal
  rw [List.get?_eq_get hlen, List.getD_eq_getElem?_getD,
    ← List.get?_eq_getElem?, List.get?_eq_get hlen]
  rfl

/-- Fewer than six `/`-segments: the malformed-path `ValueError`. -/
theorem from_path_short {b : BucketName} {path : String}
    (h : (pySplit path '/').length < 6) :
    StorageKey.from_path b path = .error (.valueErrorCaminhoInvalido path) := by
  unfold StorageKey.from_path StorageKey.from_parts
  rw [if_pos h]

/-- At least six segments but one of segments 3–5 lacks `=`: `IndexError`
(raised before the category is even inspected). -/
theorem from_path_no_eq {b : BucketName} {path : String}
    (hlen : 6 ≤ (pySplit path '/').length)
    (h : (hasEq (seg path 2) && hasEq (seg path 3) && hasEq (seg path 4))
        = false) :
    StorageKey.from_path b path = .error .indexError := by
  unfold StorageKey.from_path StorageKey.from_parts
  rw [if_neg (by omega)]
  rcases h2 : hasEq (seg path 2) with _ | _
  · unfold seg at h2
    rw [pyIndex_split_no_eq h2]
  · rcases h3 : hasEq (seg path 3) with _ | _
    · unfold seg at h2 h3
      rw [pyIndex_split_has_eq h2, pyIndex_split_no_eq h3]
    · rcases h4 : hasEq (seg path 4) with _ | _
      · unfold seg at h2 h3 h4
        rw [pyIndex_split_has_eq h2, pyIndex_split_has_eq h3,
          pyIndex_split_no_eq h4]
      · rw [h2, h3, h4] at h
        exact absurd h (by simp)

/-- At least six segments, all of segments 3–5 have `=`, but the leading
segment is no known category: the invalid-category `ValueError`. -/
theorem from_path_bad_category {b : BucketName} {path : String}
    (hlen : 6 ≤ (pySplit path '/').length)
    (h2 : hasEq (seg path 2) = true) (h3 : hasEq (seg path 3) = true)
    (h4 : hasEq (seg path 4) = true)
    (hc : DataCategory.ofString? (seg path 0) = none) :
    StorageKey.from_path b path =
      .error (.valueErrorCategoriaInvalida (seg path 0)) := by
  unfold seg at h2 h3 h4 hc ⊢
  unfold StorageKey.from_path StorageKey.from_parts
  rw [if_neg (by omega), pyIndex_split_has_eq h2, pyIndex_split_has_eq h3,
    pyIndex_split_has_eq h4, hc]

/-- At least six segments, all of segments 3–5 have `=`, leading segment a
known category: `from_path` is dataclass construction from the first six
segments only (the key names `year`/`month`/`day` are never inspected, and
segments past the sixth are ignored). -/
theorem from_path_good_parts {b : BucketName} {path : String}
    {c : DataCategory}
    (hlen : 6 ≤ (pySplit path '/').length)
    (h2 : hasEq (seg path 2) = true) (h3 : hasEq (seg path 3) = true)
    (h4 : hasEq (seg path 4) = true)
    (hc : DataCategory.ofString? (seg path 0) = some c) :
    StorageKey.from_path b path =
      StorageKey.mk? b c (seg path 1) (extractVal (seg path 2))
        (extractVal (seg path 3)) (extractVal (seg path 4)) (seg path 5) := by
  unfold seg at h2 h3 h4 hc ⊢
  unfold StorageKey.from_path StorageKey.from_parts
  rw [if_neg (by omega), pyIndex_split_has_eq h2, pyIndex_split_has_eq h3,
    pyIndex_split_has_eq h4, hc]

/-- `mk?` succeeds exactly when the three `__post_init__` checks pass. -/
theorem mk?_isOk (b : BucketName) (c : DataCategory)
    (src y m d f : String) :
    (∃ k, StorageKey.mk? b c src y m d f = .ok k) ↔
      (checkYear y = true ∧ checkMonth m = true ∧ checkDay d = true) := by
  unfold StorageKey.mk?
  rcases hY : checkYear y with _ | _ <;>
    rcases hM : checkMonth m with _ | _ <;>
    rcases hD : checkDay d with _ | _ <;> simp

/-- When the three checks pass, `mk?` yields exactly the given fields. -/
theorem mk?_of_checks {y m d : String} (b : BucketName) (c : DataCategory)
    (src f : String) (hY : checkYear y = true) (hM : checkMonth m = true)
    (hD : checkDay d = true) :
    StorageKey.mk? b c src y m d f = .ok ⟨b, c, src, y, m, d, f⟩ := by
  unfold StorageKey.mk?
  rw [hY, hM, hD]
  rfl

/-- C6: a `StorageKey` construction (dataclass `__init__` running
`__post_init__`) succeeds iff the year is a 4-digit numeric string, the
month is numeric with value in 1..12 and the day is numeric with value in
1..31; in every other case it raises, so no key with an out-of-range date
component exists. -/
theorem C6_storage_key_construction_iff (b : BucketName) (c : DataCategory)
    (src y m d f : String) :
    (∃ k, StorageKey.mk? b c src y m d f = .ok k) ↔
      (strIsdigit y = true ∧ y.length = 4 ∧
       strIsdigit m = true ∧ 1 ≤ pyInt m ∧ pyInt m ≤ 12 ∧
       strIsdigit d = true ∧ 1 ≤ pyInt d ∧ pyInt d ≤ 31) := by
  rw [mk?_isOk]
  unfold checkYear checkMonth checkDay
  simp only [Bool.and_eq_true, decide_eq_true_eq, beq_iff_eq]
  tauto

/-- C6 witness: a concrete in-range construction succeeds. -/
theorem C6_storage_key_construction_iff_witness :
    ∃ k, StorageKey.mk? .RAW .AVIAN_CASES "oie_wahis" "2023" "05" "15"
      "f.parquet" = .ok k :=
  (C6_storage_key_construction_iff .RAW .AVIAN_CASES "oie_wahis" "2023" "05"
    "15" "f.parquet").mpr (by decide)

/-- C4 counterexample: the claim says parsing fails whenever segments 3–5
do not match the `year=`/`month=`/`day=` key names, but the code never
inspects the key names: a path with keys `a=`, `b=`, `c=` parses
successfully. -/
theorem C4_counterexample_wrong_key_names_parse_ok :
    StorageKey.from_path .RAW "avian_cases/src/a=2023/b=05/c=15/f.parquet" =
      .ok ⟨.RAW, .AVIAN_CASES, "src", "2023", "05", "15", "f.parquet"⟩ := by
  decide

/-- C4 amended: `from_path` raises the malformed-path `ValueError` exactly
for fewer than six segments; with six or more segments it raises
`IndexError` (not the malformed-path error) when one of segments 3–5 lacks
`=`, this before the category is inspected; with all three `=` present it
raises the invalid-category `ValueError` on an unknown leading segment; and
otherwise it is exactly dataclass construction (with its
date-format `ValueError`s) from the first six segments — the key names
`year`/`month`/`day` are never checked.  These four cases are the only
error behaviour. -/
theorem C4_parse_error_characterization (b : BucketName) (path : String) :
    ((pySplit path '/').length < 6 →
      StorageKey.from_path b path = .error (.valueErrorCaminhoInvalido path)) ∧
    (6 ≤ (pySplit path '/').length →
      (hasEq (seg path 2) && hasEq (seg path 3) && hasEq (seg path 4))
          = false →
      StorageKey.from_path b path = .error .indexError) ∧
    (6 ≤ (pySplit path '/').length → hasEq (seg path 2) = true →
      hasEq (seg path 3) = true → hasEq (seg path 4) = true →
      DataCategory.ofString? (seg path 0) = none →
      StorageKey.from_path b path =
        .error (.valueErrorCategoriaInvalida (seg path 0))) ∧
    (∀ c, 6 ≤ (pySplit path '/').length → hasEq (seg path 2) = true →
      hasEq (seg path 3) = true → hasEq (seg path 4) = true →
      DataCategory.ofString? (seg path 0) = some c →
      StorageKey.from_path b path =
        StorageKey.mk? b c (seg path 1) (extractVal (seg path 2))
          (extractVal (seg path 3)) (extractVal (seg path 4)) (seg path 5)) :=
  ⟨fun h => from_path_short h,
   fun hl h => from_path_no_eq hl h,
   fun hl h2 h3 h4 hc => from_path_bad_category hl h2 h3 h4 hc,
   fun _ hl h2 h3 h4 hc => from_path_good_parts hl h2 h3 h4 hc⟩

/-- C4 witness: each of the four behaviours at a concrete path. -/
theorem C4_parse_error_characterization_witness :
    StorageKey.from_path .RAW "a/b" =
      .error (.valueErrorCaminhoInvalido "a/b") ∧
    StorageKey.from_path .RAW "avian_cases/s/noeq/x=1/y=2/f" =
      .error .indexError ∧
    StorageKey.from_path .RAW "zzz/s/a=1/b=2/c=3/f" =
      .error (.valueErrorCategoriaInvalida "zzz") ∧
    StorageKey.from_path .RAW "avian_cases/s/a=2023/b=05/c=15/f" =
      StorageKey.mk? .RAW .AVIAN_CASES "s" "2023" "05" "15" "f" :=
  ⟨(C4_parse_error_characterization .RAW "a/b").1 (by decide),
   (C4_parse_error_characterization .RAW "avian_cases/s/noeq/x=1/y=2/f").2.1
     (by decide) (by decide),
   (C4_parse_error_characterization .RAW "zzz/s/a=1/b=2/c=3/f").2.2.1
     (by decide) (by decide) (by decide) (by decide) (by decide),
   (C4_parse_error_characterization .RAW
       "avian_cases/s/a=2023/b=05/c=15/f").2.2.2 .AVIAN_CASES
     (by decide) (by decide) (by decide) (by decide) (by decide)⟩

/-- A 7-segment path meeting all of the claim's conditions (known leading
category, `=` in segments 3–5) on which `from_path` nevertheless fails. -/
def pathC10bad : String := "avian_cases/s/year=20x3/month=05/day=15/f/x"

/-- C10 counterexample: the claim's hypotheses hold of `pathC10bad` (more
than six segments, known category, `=` in segments 3–5), yet `from_path`
raises rather than succeeding: the extracted year must additionally pass
`__post_init__`. -/
theorem C10_counterexample_valid_shape_still_fails :
    6 < (pySplit pathC10bad '/').length ∧
    DataCategory.ofString? (seg pathC10bad 0) = some .AVIAN_CASES ∧
    hasEq (seg pathC10bad 2) = true ∧ hasEq (seg pathC10bad 3) = true ∧
    hasEq (seg pathC10bad 4) = true ∧
    StorageKey.from_path .RAW pathC10bad =
      .error (.valueErrorFormatoAno "20x3") := by
  decide

/-- A 7-segment path whose first six segments form a fully valid key. -/
def pathC10seven : String := "avian_cases/s/year=2023/month=05/day=15/f/extra"

/-- Its 6-segment truncation. -/
def pathC10six : String := "avian_cases/s/year=2023/month=05/day=15/f"

/-- C10 amended: for a path with at least six segments, known leading
category, `=` in segments 3–5 and extracted date fields passing
`__post_init__`, `from_path` succeeds using only the first six segments,
discarding the rest; hence parsing is not injective and
`full_path ∘ from_path` is not the identity on paths. -/
theorem C10_parse_discards_trailing_segments :
    (∀ (b : BucketName) (path : String) (c : DataCategory),
      6 ≤ (pySplit path '/').length → hasEq (seg path 2) = true →
      hasEq (seg path 3) = true → hasEq (seg path 4) = true →
      DataCategory.ofString? (seg path 0) = some c →
      checkYear (extractVal (seg path 2)) = true →
      checkMonth (extractVal (seg path 3)) = true →
      checkDay (extractVal (seg path 4)) = true →
      StorageKey.from_path b path =
        .ok ⟨b, c, seg path 1, extractVal (seg path 2),
          extractVal (seg path 3), extractVal (seg path 4), seg path 5⟩) ∧
    (pathC10seven ≠ pathC10six ∧
      StorageKey.from_path .RAW pathC10seven =
        StorageKey.from_path .RAW pathC10six) ∧
    Except.map StorageKey.full_path (StorageKey.from_path .RAW pathC10seven)
      = .ok pathC10six := by
  refine ⟨?_, by decide, by decide⟩
  intro b path c hl h2 h3 h4 hc hY hM hD
  rw [from_path_good_parts hl h2 h3 h4 hc, mk?_of_checks b c _ _ hY hM hD]

/-- C10 witness: the general part applied at `pathC10seven`. -/
theorem C10_parse_discards_trailing_segments_witness :
    StorageKey.from_path .RAW pathC10seven =
      .ok ⟨.RAW, .AVIAN_CASES, "s", "2023", "05", "15", "f"⟩ :=
  C10_parse_discards_trailing_segments.1 .RAW pathC10seven .AVIAN_CASES
    (by decide) (by decide) (by decide) (by decide) (by decide) (by decide)
    (by decide) (by decide)

/-! ### Domain model: `schemas/models/h5n1.py` -/

/-- `class BirdType(StrEnum)`. -/
inductive BirdType where
  | wild | domestic | migratory | unknown
deriving DecidableEq, Repr

/-- `StrEnum` member value. -/
def BirdType.value : BirdType → String
  | .wild => "wild"
  | .domestic => "domestic"
  | .migratory => "migratory"
  | .unknown => "unknown"

/-- `BirdType(s)`: enum lookup by value. -/
def BirdType.ofString? (s : String) : Option BirdType :=
  if s = "wild" then some .wild
  else if s = "domestic" then some .domestic
  else if s = "migratory" then some .migratory
  else if s = "unknown" then some .unknown
  else none

/-- `class ConfidenceLevel(StrEnum)`. -/
inductive ConfidenceLevel where
  | high | medium | low | unverified
deriving DecidableEq, Repr

/-- `StrEnum` member value. -/
def ConfidenceLevel.value : ConfidenceLevel → String
  | .high => "high"
  | .medium => "medium"
  | .low => "low"
  | .unverified => "unverified"

/-- `ConfidenceLevel(s)`: enum lookup by value. -/
def ConfidenceLevel.ofString? (s : String) : Option ConfidenceLevel :=
  if s = "high" then some .high
  else if s = "medium" then some .medium
  else if s = "low" then some .low
  else if s = "unverified" then some .unverified
  else none

/-- Python `datetime`: the embedded code only reads `year`/`month`/`day`;
the time-of-day is carried opaquely so that equality of values is
meaningful. -/
structure PyDateTime where
  year : Nat
  month : Nat
  day : Nat
  tod : Nat
deriving DecidableEq, Repr

/-- `class Location(BaseModel)`: all fields optional with default `None`;
floats modelled as exact rationals. -/
structure Location where
  region : Option String
  city : Option String
  latitude : Option Rat
  longitude : Option Rat
deriving DecidableEq, Repr

/-- The two `field_validator`s of `Location`: latitude in `[-90, 90]`,
longitude in `[-180, 180]` whenever present. -/
def Location.checks (l : Location) : Bool :=
  (l.latitude.all fun v => -90 ≤ v && v ≤ 90) &&
    (l.longitude.all fun v => -180 ≤ v && v ≤ 180)

/-- `class BirdInfo(BaseModel)`. -/
structure BirdInfo where
  species : String
  type : BirdType
  population_size : Option Int
deriving DecidableEq, Repr

/-- `class Metadata(BaseModel)`. -/
structure Metadata where
  source : String
  confidence : ConfidenceLevel
  collected_at : PyDateTime
  is_verified : Bool
deriving DecidableEq, Repr

/-- `class AvianFluCase(BaseModel)`. -/
structure AvianFluCase where
  case_id : String
  detection_date : PyDateTime
  bird : BirdInfo
  location : Location
  metadata : Metadata
deriving DecidableEq, Repr

/-- A record as pydantic would have admitted it at construction: the only
field validators on this model tree are the two `Location` range checks. -/
def AvianFluCase.valid (m : AvianFluCase) : Bool :=
  m.location.checks

/-- Python `s.lower()` (ASCII case mapping of `Char.toLower` — the fields
involved are ASCII). -/
def pyLower (s : String) : String :=
  String.mk (s.data.map Char.toLower)

/-- Python `s.replace(a, b)` for one-character arguments. -/
def pyReplace (s : String) (a b : Char) : String :=
  String.mk (s.data.map fun c => if c = a then b else c)

/-- Python `f"{n:02d}"` for a natural number. -/
def pad2 (n : Nat) : String :=
  if n < 10 then "0" ++ toString n else toString n

/-- `AvianFluCase.to_storage_key(filename)`: dataclass construction with
`bucket=RAW`, `category=AVIAN_CASES`,
`source=metadata.source.lower().replace(" ", "_")`,
`year=str(d.year)`, `month=f"{d.month:02d}"`, `day=f"{d.day:02d}"`. -/
def AvianFluCase.to_storage_key (m : AvianFluCase) (filename : String) :
    Except PyErr StorageKey :=
  StorageKey.mk? .RAW .AVIAN_CASES
    (pyReplace (pyLower m.metadata.source) ' ' '_')
    (toString m.detection_date.year)
    (pad2 m.detection_date.month)
    (pad2 m.detection_date.day)
    filename

/-- Spec-side formulation of the source normalization actually performed:
one pass, spaces to `_`, everything else lower-cased. -/
def specNormalizeSource (s : String) : String :=
  String.mk (s.data.map fun c => if c = ' ' then '_' else Char.toLower c)

/-- ASCII lower-casing maps nothing onto the space character. -/
theorem toLower_ne_space {c : Char} (hc : c ≠ ' ') : Char.toLower c ≠ ' ' := by
  unfold Char.toLower
  simp only []
  by_cases h : c.toNat ≥ 65 ∧ c.toNat ≤ 90
  · rw [if_pos h]
    obtain ⟨h1, h2⟩ := h
    interval_cases hn : c.toNat <;> decide
  · rw [if_neg h]
    exact hc

/-- The code's `lower()` then `replace(" ", "_")` equals the one-pass
spec-side normalization. -/
theorem pyReplace_pyLower_eq_specNormalize (s : String) :
    pyReplace (pyLower s) ' ' '_' = specNormalizeSource s := by
  unfold pyReplace pyLower specNormalizeSource
  simp only [List.map_map]
  congr 1
  apply List.map_congr_left
  intro c _
  by_cases hc : c = ' '
  · subst hc
    decide
  · simp only [Function.comp_apply, if_neg (toLower_ne_space hc), if_neg hc]

/-- Successful dataclass construction pins every field. -/
theorem mk?_ok_eq {b : BucketName} {c : DataCategory}
    {src y m d f : String} {k : StorageKey}
    (h : StorageKey.mk? b c src y m d f = .ok k) :
    k = ⟨b, c, src, y, m, d, f⟩ := by
  unfold StorageKey.mk? at h
  split at h
  · exact absurd h (by simp)
  · split at h
    · exact absurd h (by simp)
    · split at h
      · exact absurd h (by simp)
      · exact (Except.ok.injEq _ _).mp h |>.symm

/-- `f"{n:02d}"` on an in-range day/month number: two characters whose
decimal value is `n`. -/
theorem pad2_spec {n : Nat} (h1 : 1 ≤ n) (h2 : n ≤ 31) :
    (pad2 n).length = 2 ∧ pyInt (pad2 n) = n := by
  interval_cases n <;> exact ⟨by decide, by decide⟩

/-- The spec's concrete scenario record: source `"OIE WAHIS"`, detection
date 2023-05-15. -/
def caseC7 : AvianFluCase :=
  { case_id := "case-1"
    detection_date := ⟨2023, 5, 15, 0⟩
    bird := ⟨"Gallus gallus", .domestic, some 10⟩
    location := ⟨some "Sul", some "Curitiba", some (-25), some (-49)⟩
    metadata := ⟨"OIE WAHIS", .high, ⟨2023, 5, 16, 0⟩, true⟩ }

/-- The key the concrete scenario produces. -/
def keyC7 : StorageKey :=
  ⟨.RAW, .AVIAN_CASES, "oie_wahis", "2023", "05", "15", "data.parquet"⟩

/-- The same record with a hyphenated source, `"OIE-WAHIS"`. -/
def caseC7dash : AvianFluCase :=
  { caseC7 with metadata := ⟨"OIE-WAHIS", .high, ⟨2023, 5, 16, 0⟩, true⟩ }

/-- C7 counterexample: the claim says normalization replaces every
non-alphanumeric character with `_`, but only spaces are replaced: for
source `"OIE-WAHIS"` the built key keeps the hyphen (`"oie-wahis"`, a
non-alphanumeric character surviving), instead of the claimed
`"oie_wahis"`. -/
theorem C7_counterexample_hyphen_survives :
    Except.map (fun k => k.source)
      (AvianFluCase.to_storage_key caseC7dash "data.parquet") =
        .ok "oie-wahis" ∧
    "oie-wahis" ≠ "oie_wahis" ∧
    '-' ∈ "oie-wahis".data ∧ Char.isAlphanum '-' = false := by
  refine ⟨by decide, by decide, by decide, by decide⟩

/-- C7 amended: the concrete scenario yields exactly the expected path, and
in general `to_storage_key` lower-cases the source and replaces spaces
(only) with `_`, and zero-pads month and day to two digits (stated as:
two characters whose decimal value is the original month/day). -/
theorem C7_build_normalization :
    (Except.map StorageKey.full_path
      (AvianFluCase.to_storage_key caseC7 "data.parquet") =
        .ok "avian_cases/oie_wahis/year=2023/month=05/day=15/data.parquet") ∧
    (∀ (m : AvianFluCase) (f : String) (k : StorageKey),
      AvianFluCase.to_storage_key m f = .ok k →
      k.source = specNormalizeSource m.metadata.source ∧
      (1 ≤ m.detection_date.month → m.detection_date.month ≤ 12 →
        k.month.length = 2 ∧ pyInt k.month = m.detection_date.month) ∧
      (1 ≤ m.detection_date.day → m.detection_date.day ≤ 31 →
        k.day.length = 2 ∧ pyInt k.day = m.detection_date.day) ∧
      k.filename = f ∧ k.category = .AVIAN_CASES ∧ k.bucket = .RAW) := by
  refine ⟨by decide, ?_⟩
  intro m f k h
  have hk := mk?_ok_eq h
  subst hk
  refine ⟨pyReplace_pyLower_eq_specNormalize _, ?_, ?_, rfl, rfl, rfl⟩
  · intro hlo hhi
    exact pad2_spec hlo (hhi.trans (by norm_num))
  · intro hlo hhi
    exact pad2_spec hlo hhi

/-- C7 witness: the general normalization facts at the concrete record. -/
theorem C7_build_normalization_witness :
    AvianFluCase.to_storage_key caseC7 "data.parquet" = .ok keyC7 ∧
    keyC7.source = specNormalizeSource caseC7.metadata.source ∧
    keyC7.month.length = 2 ∧
    pyInt keyC7.month = caseC7.detection_date.month :=
  have hok : AvianFluCase.to_storage_key caseC7 "data.parquet" = .ok keyC7 :=
    by decide
  have h := C7_build_normalization.2 caseC7 "data.parquet" keyC7 hok
  ⟨hok, h.1, (h.2.1 (by decide) (by decide)).1,
    (h.2.1 (by decide) (by decide)).2⟩

/-! ### Tabular interface: `connectors/data/transformer.py`

`model_to_dataframe` is `pd.DataFrame([m.model_dump() for m in models])`;
since every dump of this model tree has the same keys, the frame is the
list of its row-dicts.  The dumps nest exactly one level (the submodels
hold only scalars), so dict cells are scalar-valued.  pydantic's
python-mode `model_dump` keeps `StrEnum` members, which are `str`
instances, modelled as their value strings; pandas-side `None`/`NaN`/`NaT`
are collapsed into the single NA scalar `PyScalar.none`, which is exactly
what `pd.notna` rejects. -/

/-- Scalar cell values. -/
inductive PyScalar where
  | none
  | bool (b : Bool)
  | int (n : Int)
  | float (q : Rat)
  | str (s : String)
  | dt (d : PyDateTime)
deriving DecidableEq, Repr

/-- A cell: a scalar, or a (sub-)dict of scalars. -/
inductive PyVal where
  | scalar (v : PyScalar)
  | dict (fields : List (String × PyScalar))
deriving DecidableEq, Repr

/-- One row-dict (`row.to_dict()`), keys in column order. -/
abbrev Row := List (String × PyVal)

/-- The tabular form: rows in order. -/
abbrev DataFrame := List Row

/-- `pd.notna` on a cell. -/
def pd_notna : PyVal → Bool
  | .scalar PyScalar.none => false
  | _ => true

/-- Optional string field as dumped. -/
def optStrScalar : Option String → PyScalar
  | some s => .str s
  | Option.none => PyScalar.none

/-- Optional float field as dumped. -/
def optRatScalar : Option Rat → PyScalar
  | some q => .float q
  | Option.none => PyScalar.none

/-- Optional int field as dumped. -/
def optIntScalar : Option Int → PyScalar
  | some n => .int n
  | Option.none => PyScalar.none

/-- `Location.model_dump()` entries. -/
def Location.dumpFields (l : Location) : List (String × PyScalar) :=
  [("region", optStrScalar l.region), ("city", optStrScalar l.city),
   ("latitude", optRatScalar l.latitude),
   ("longitude", optRatScalar l.longitude)]

/-- `BirdInfo.model_dump()` entries. -/
def BirdInfo.dumpFields (b : BirdInfo) : List (String × PyScalar) :=
  [("species", .str b.species), ("type", .str b.type.value),
   ("population_size", optIntScalar b.population_size)]

/-- `Metadata.model_dump()` entries. -/
def Metadata.dumpFields (m : Metadata) : List (String × PyScalar) :=
  [("source", .str m.source), ("confidence", .str m.confidence.value),
   ("collected_at", .dt m.collected_at), ("is_verified", .bool m.is_verified)]

/-- `AvianFluCase.model_dump()`: the row-dict with nested dicts for the
submodels. -/
def AvianFluCase.model_dump (m : AvianFluCase) : Row :=
  [("case_id", .scalar (.str m.case_id)),
   ("detection_date", .scalar (.dt m.detection_date)),
   ("bird", .dict m.bird.dumpFields),
   ("location", .dict m.location.dumpFields),
   ("metadata", .dict m.metadata.dumpFields)]

/-- `DataTransformer.model_to_dataframe` (empty input gives the empty
frame, as in the source's early return). -/
def model_to_dataframe (models : List AvianFluCase) : DataFrame :=
  models.map AvianFluCase.model_dump

/-- Pydantic parse of an optional string field (default `None`). -/
def fieldOptStr (d : List (String × PyScalar)) (f : String) :
    Except PyErr (Option String) :=
  match d.lookup f with
  | Option.none => .ok Option.none
  | some PyScalar.none => .ok Option.none
  | some (.str s) => .ok (some s)
  | some _ => .error (.validationError f)

/-- Pydantic parse of an optional float field (default `None`; lax mode
admits ints as floats). -/
def fieldOptFloat (d : List (String × PyScalar)) (f : String) :
    Except PyErr (Option Rat) :=
  match d.lookup f with
  | Option.none => .ok Option.none
  | some PyScalar.none => .ok Option.none
  | some (.float q) => .ok (some q)
  | some (.int n) => .ok (some (n : Rat))
  | some _ => .error (.validationError f)

/-- `field_validator("latitude")`: raises unless `v is None` or
`-90 <= v <= 90`, returning `v`. -/
def Location.validate_latitude (v : Option Rat) : Except PyErr (Option Rat) :=
  match v with
  | some x =>
    if x < -90 ∨ x > 90 then .error (.validationError "latitude")
    else .ok (some x)
  | Option.none => .ok Option.none

/-- `field_validator("longitude")`: raises unless `v is None` or
`-180 <= v <= 180`, returning `v`. -/
def Location.validate_longitude (v : Option Rat) : Except PyErr (Option Rat) :=
  match v with
  | some x =>
    if x < -180 ∨ x > 180 then .error (.validationError "longitude")
    else .ok (some x)
  | Option.none => .ok Option.none

/-- `Location.model_validate`: optional fields with their two range
`field_validator`s (each checked at its field, in field order). -/
def Location.model_validate (d : List (String × PyScalar)) :
    Except PyErr Location := do
  let region ← fieldOptStr d "region"
  let city ← fieldOptStr d "city"
  let latitude ← fieldOptFloat d "latitude"
  let latitude ← Location.validate_latitude latitude
  let longitude ← fieldOptFloat d "longitude"
  let longitude ← Location.validate_longitude longitude
  Except.ok ⟨region, city, latitude, longitude⟩

/-- `BirdInfo.model_validate`: required species, enum `type` with default
`unknown`, optional population size. -/
def BirdInfo.model_validate (d : List (String × PyScalar)) :
    Except PyErr BirdInfo := do
  let species ← match d.lookup "species" with
    | some (.str s) => Except.ok s
    | _ => Except.error (.validationError "species")
  let type ← match d.lookup "type" with
    | Option.none => Except.ok BirdType.unknown
    | some (.str s) =>
      match BirdType.ofString? s with
      | some t => Except.ok t
      | Option.none => Except.error (.validationError "type")
    | some _ => Except.error (.validationError "type")
  let population_size ← match d.lookup "population_size" with
    | Option.none => Except.ok Option.none
    | some PyScalar.none => Except.ok Option.none
    | some (.int n) => Except.ok (some n)
    | some _ => Except.error (.validationError "population_size")
  Except.ok ⟨species, type, population_size⟩

/-- `Metadata.model_validate`: required source, enum with default,
`collected_at` with `default_factory=datetime.now` (the ambient clock is
the explicit `now` argument), boolean with default `False`. -/
def Metadata.model_validate (now : PyDateTime)
    (d : List (String × PyScalar)) : Except PyErr Metadata := do
  let source ← match d.lookup "source" with
    | some (.str s) => Except.ok s
    | _ => Except.error (.validationError "source")
  let confidence ← match d.lookup "confidence" with
    | Option.none => Except.ok ConfidenceLevel.unverified
    | some (.str s) =>
      match ConfidenceLevel.ofString? s with
      | some c => Except.ok c
      | Option.none => Except.error (.validationError "confidence")
    | some _ => Except.error (.validationError "confidence")
  let collected_at ← match d.lookup "collected_at" with
    | Option.none => Except.ok now
    | some (.dt t) => Except.ok t
    | some _ => Except.error (.validationError "collected_at")
  let is_verified ← match d.lookup "is_verified" with
    | Option.none => Except.ok false
    | some (.bool b) => Except.ok b
    | some _ => Except.error (.validationError "is_verified")
  Except.ok ⟨source, confidence, collected_at, is_verified⟩

/-- `AvianFluCase.model_validate` on one row-dict: required scalar fields
and required submodels from nested dicts.  pydantic reports all failing
fields in one `ValidationError`; here the first failure names the error,
which preserves exactly the ok/raise behaviour per row. -/
def AvianFluCase.model_validate (now : PyDateTime) (row : Row) :
    Except PyErr AvianFluCase := do
  let case_id ← match row.lookup "case_id" with
    | some (.scalar (.str s)) => Except.ok s
    | _ => Except.error (.validationError "case_id")
  let detection_date ← match row.lookup "detection_date" with
    | some (.scalar (.dt t)) => Except.ok t
    | _ => Except.error (.validationError "detection_date")
  let bird ← match row.lookup "bird" with
    | some (.dict fields) => BirdInfo.model_validate fields
    | _ => Except.error (.validationError "bird")
  let location ← match row.lookup "location" with
    | some (.dict fields) => Location.model_validate fields
    | _ => Except.error (.validationError "location")
  let metadata ← match row.lookup "metadata" with
    | some (.dict fields) => Metadata.model_validate now fields
    | _ => Except.error (.validationError "metadata")
  Except.ok ⟨case_id, detection_date, bird, location, metadata⟩

/-- The dict comprehension dropping NA values before validation:
`{k: v for k, v in model_data.items() if pd.notna(v)}`. -/
def dropna (row : Row) : Row :=
  row.filter fun kv => pd_notna kv.2

/-- `DataTransformer.dataframe_to_models`: per-row `model_validate` inside
`try`; successes are appended to the model list, failures are logged and
appended to the error list, in row order (the error component returned
here is the source's logged/counted failure list; the source's
`df.empty` early return coincides with the nil case). -/
def dataframe_to_models (now : PyDateTime) :
    DataFrame → List AvianFluCase × List PyErr
  | [] => ([], [])
  | row :: rest =>
    match AvianFluCase.model_validate now (dropna row),
        dataframe_to_models now rest with
    | .ok m, (ms, es) => (m :: ms, es)
    | .error e, (ms, es) => (ms, e :: es)

/-- Binding a success in `Except` is application. -/
theorem except_bind_ok {ε α β : Type} (a : α) (f : α → Except ε β) :
    (Except.ok (ε := ε) a >>= f) = f a := rfl

/-- Validating a dumped `BirdInfo` recovers it. -/
theorem bird_validate_dump (b : BirdInfo) :
    BirdInfo.model_validate b.dumpFields = .ok b := by
  obtain ⟨sp, bt, ps⟩ := b
  cases bt <;> cases ps <;> rfl

/-- Validating a dumped `Metadata` recovers it (the `collected_at` default
is not reached: the dump carries the stored timestamp). -/
theorem metadata_validate_dump (now : PyDateTime) (m : Metadata) :
    Metadata.model_validate now m.dumpFields = .ok m := by
  obtain ⟨src, conf, col, ver⟩ := m
  cases conf <;> rfl

/-- `fieldOptStr` on an entry dumped from an optional string. -/
theorem fieldOptStr_of_lookup {d : List (String × PyScalar)} {f : String}
    {v : Option String} (h : d.lookup f = some (optStrScalar v)) :
    fieldOptStr d f = .ok v := by
  unfold fieldOptStr
  rw [h]
  cases v <;> rfl

/-- `fieldOptFloat` on an entry dumped from an optional float. -/
theorem fieldOptFloat_of_lookup {d : List (String × PyScalar)} {f : String}
    {v : Option Rat} (h : d.lookup f = some (optRatScalar v)) :
    fieldOptFloat d f = .ok v := by
  unfold fieldOptFloat
  rw [h]
  cases v <;> rfl

/-- The latitude validator passes a value satisfying the range check. -/
theorem validate_latitude_ok {v : Option Rat}
    (h : (v.all fun q => -90 ≤ q && q ≤ 90) = true) :
    Location.validate_latitude v = .ok v := by
  cases v with
  | none => rfl
  | some x =>
    simp only [Option.all, Bool.and_eq_true, decide_eq_true_eq] at h
    simp only [Location.validate_latitude]
    rw [if_neg (by push_neg; exact ⟨h.1, h.2⟩)]

/-- The longitude validator passes a value satisfying the range check. -/
theorem validate_longitude_ok {v : Option Rat}
    (h : (v.all fun q => -180 ≤ q && q ≤ 180) = true) :
    Location.validate_longitude v = .ok v := by
  cases v with
  | none => rfl
  | some x =>
    simp only [Option.all, Bool.and_eq_true, decide_eq_true_eq] at h
    simp only [Location.validate_longitude]
    rw [if_neg (by push_neg; exact ⟨h.1, h.2⟩)]

/-- Validating a dumped `Location` recovers it when the record passed its
range validators. -/
theorem location_validate_dump (l : Location) (hl : l.checks = true) :
    Location.model_validate l.dumpFields = .ok l := by
  obtain ⟨reg, cty, lat, lon⟩ := l
  unfold Location.checks at hl
  simp only [Bool.and_eq_true] at hl
  obtain ⟨hlat, hlon⟩ := hl
  unfold Location.model_validate
  rw [fieldOptStr_of_lookup
        (d := Location.dumpFields ⟨reg, cty, lat, lon⟩) (f := "region")
        (v := reg) rfl,
      fieldOptStr_of_lookup
        (d := Location.dumpFields ⟨reg, cty, lat, lon⟩) (f := "city")
        (v := cty) rfl,
      fieldOptFloat_of_lookup
        (d := Location.dumpFields ⟨reg, cty, lat, lon⟩) (f := "latitude")
        (v := lat) rfl,
      fieldOptFloat_of_lookup
        (d := Location.dumpFields ⟨reg, cty, lat, lon⟩) (f := "longitude")
        (v := lon) rfl]
  simp only [except_bind_ok]
  rw [validate_latitude_ok hlat]
  simp only [except_bind_ok]
  rw [validate_longitude_ok hlon]
  rfl

/-- Validating a dumped record (after the NA-drop, which removes nothing:
every top-level cell of a dump is a string, a datetime or a dict) recovers
the record, provided it passed its validators. -/
theorem model_validate_model_dump (now : PyDateTime) (m : AvianFluCase)
    (hm : m.valid = true) :
    AvianFluCase.model_validate now (dropna m.model_dump) = .ok m := by
  obtain ⟨cid, dd, b, l, mt⟩ := m
  have hb := bird_validate_dump b
  have hl := location_validate_dump l (by simpa [AvianFluCase.valid] using hm)
  have hmt := metadata_validate_dump now mt
  have hdrop : dropna (AvianFluCase.model_dump ⟨cid, dd, b, l, mt⟩) =
      AvianFluCase.model_dump ⟨cid, dd, b, l, mt⟩ := rfl
  rw [hdrop]
  simp [AvianFluCase.model_validate, AvianFluCase.model_dump, List.lookup,
    except_bind_ok, hb, hl, hmt]

/-- Dump-then-recover extends to whole lists of valid records. -/
theorem dataframe_roundtrip_aux (now : PyDateTime) (ms : List AvianFluCase)
    (h : ∀ m ∈ ms, m.valid = true) :
    dataframe_to_models now (model_to_dataframe ms) = (ms, []) := by
  induction ms with
  | nil => rfl
  | cons m rest ih =>
    have hm := h m (List.mem_cons_self m rest)
    have hrest := ih fun x hx => h x (List.mem_cons_of_mem m hx)
    show dataframe_to_models now
      (AvianFluCase.model_dump m :: model_to_dataframe rest) = (m :: rest, [])
    simp only [dataframe_to_models]
    rw [model_validate_model_dump now m hm, hrest]

/-- C8: converting 10 validated records with unique primary keys to the
tabular form and back recovers exactly the 10 original records, field-wise
equal, with no conversion failure. -/
theorem C8_model_tabular_roundtrip (now : PyDateTime)
    (ms : List AvianFluCase) (hv : ∀ m ∈ ms, m.valid = true)
    (hlen : ms.length = 10)
    (hpk : ms.Pairwise fun a b => a.case_id ≠ b.case_id) :
    dataframe_to_models now (model_to_dataframe ms) = (ms, []) :=
  dataframe_roundtrip_aux now ms hv

/-- A simple validated record with the given id. -/
def caseWithId (i : String) : AvianFluCase :=
  { case_id := i
    detection_date := ⟨2023, 5, 15, 0⟩
    bird := ⟨"Anas platyrhynchos", .wild, Option.none⟩
    location := ⟨Option.none, Option.none, Option.none, Option.none⟩
    metadata := ⟨"IBAMA", .medium, ⟨2023, 5, 16, 0⟩, false⟩ }

/-- Ten validated records with distinct primary keys. -/
def msC8 : List AvianFluCase :=
  ["c0", "c1", "c2", "c3", "c4", "c5", "c6", "c7", "c8", "c9"].map caseWithId

/-- C8 witness: the hypotheses hold of `msC8` and the round-trip recovers
it. -/
theorem C8_model_tabular_roundtrip_witness :
    ((∀ m ∈ msC8, m.valid = true) ∧ msC8.length = 10 ∧
      msC8.Pairwise fun a b => a.case_id ≠ b.case_id) ∧
    dataframe_to_models ⟨2025, 1, 1, 0⟩ (model_to_dataframe msC8) =
      (msC8, []) :=
  ⟨⟨by decide, by decide, by decide⟩,
    C8_model_tabular_roundtrip ⟨2025, 1, 1, 0⟩ msC8 (by decide) (by decide)
      (by decide)⟩

/-- A row with the required `case_id` field missing: `model_validate`
raises, the loop catches. -/
def rowC9bad : Row :=
  [("detection_date", .scalar (.dt ⟨2023, 5, 15, 0⟩))]

/-- The eight valid records of the C9 batch. -/
def msC9 : List AvianFluCase :=
  ["r0", "r1", "r2", "r3", "r4", "r5", "r6", "r7"].map caseWithId

/-- A 10-row batch: rows 4 and 8 lack the required `case_id`. -/
def dfC9 : DataFrame :=
  (["r0", "r1", "r2"].map fun i => (caseWithId i).model_dump) ++ [rowC9bad]
    ++ (["r3", "r4", "r5"].map fun i => (caseWithId i).model_dump)
    ++ [rowC9bad]
    ++ (["r6", "r7"].map fun i => (caseWithId i).model_dump)

/-- C9: `dataframe_to_models` is total — a row failing validation is
skipped and its error recorded, never fatal; the models returned are
exactly the rows whose validation succeeds, in order, and models plus
recorded failures exhaust the batch.  Concretely, the 10-row batch `dfC9`
with 2 rows missing a required field yields exactly the 8 valid records
and 2 recorded conversion failures. -/
theorem C9_row_failures_skipped_not_fatal :
    (∀ (now : PyDateTime) (df : DataFrame),
      (dataframe_to_models now df).1 =
        df.filterMap (fun row =>
          (AvianFluCase.model_validate now (dropna row)).toOption) ∧
      (dataframe_to_models now df).1.length +
        (dataframe_to_models now df).2.length = df.length) ∧
    dataframe_to_models ⟨2025, 1, 1, 0⟩ dfC9 =
      (msC9, [.validationError "case_id", .validationError "case_id"]) := by
  constructor
  · intro now df
    induction df with
    | nil => exact ⟨rfl, rfl⟩
    | cons row rest ih =>
      obtain ⟨ih1, ih2⟩ := ih
      rcases hrec : dataframe_to_models now rest with ⟨ms, es⟩
      rw [hrec] at ih1 ih2
      simp only at ih1 ih2
      cases hv : AvianFluCase.model_validate now (dropna row) with
      | ok m =>
        have hstep : dataframe_to_models now (row :: rest) = (m :: ms, es) := by
          simp only [dataframe_to_models, hv, hrec]
        rw [hstep]
        refine ⟨?_, ?_⟩
        · simp [List.filterMap_cons, hv, Except.toOption, ih1]
        · simp only [List.length_cons]
          omega
      | error e =>
        have hstep : dataframe_to_models now (row :: rest) = (ms, e :: es) := by
          simp only [dataframe_to_models, hv, hrec]
        rw [hstep]
        refine ⟨?_, ?_⟩
        · simp [List.filterMap_cons, hv, Except.toOption, ih1]
        · simp only [List.length_cons]
          omega
  · decide

/-! ### Object store: `connectors/data/clients/minio.py`

The store itself is the external collaborator: its contents are the
`objects` list (bucket, object name); network/permission failures of the
underlying driver are the exogenous `fail` field — when set, every S3
operation raises `S3Error`, which each client method logs and re-raises. -/

/-- Python `s.startswith(pre)` / minio's prefix filter, over the character
lists. -/
def pyStartswith (pre s : String) : Bool :=
  pre.data.isPrefixOf s.data

/-- Python `s.endswith(suf)`, over the character lists. -/
def pyEndswith (suf s : String) : Bool :=
  suf.data.isSuffixOf s.data

/-- The object-store world as the `MinioClient` sees it. -/
structure MinioState where
  objects : List (String × String)
  fail : Option String
deriving DecidableEq, Repr

/-- `MinioClient.list_objects(bucket, prefix)` (recursive listing: all
object names under the prefix). -/
def MinioClient.list_objects (st : MinioState) (bucket pre : String) :
    Except PyErr (List String) :=
  match st.fail with
  | some msg => .error (.s3Error msg)
  | Option.none =>
    .ok ((st.objects.filter fun o =>
      o.1 == bucket && pyStartswith pre o.2).map Prod.snd)

/-- `MinioClient.list_parquet_files`: the listing filtered to names ending
in `.parquet`. -/
def MinioClient.list_parquet_files (st : MinioState) (bucket pre : String) :
    Except PyErr (List String) := do
  let all_files ← MinioClient.list_objects st bucket pre
  Except.ok (all_files.filter fun f => pyEndswith ".parquet" f)

/-- `MinioClient.get_parquet_uris`: the parquet names as
`s3://bucket/path` URIs. -/
def MinioClient.get_parquet_uris (st : MinioState) (bucket pre : String) :
    Except PyErr (List String) := do
  let paths ← MinioClient.list_parquet_files st bucket pre
  Except.ok (paths.map fun p => "s3://" ++ bucket ++ "/" ++ p)

/-! ### Analytical store: `connectors/data/clients/duck_db.py` -/

/-- One catalog table: name, column order, declared primary key
(`PRAGMA table_info` exposes the latter two), and rows. -/
structure Table where
  name : String
  columns : List String
  pk : Option String
  rows : List Row
deriving DecidableEq, Repr

/-- DuckDB client state: the catalog, what `read_parquet` finds at each
S3 URI, an exogenous S3-read failure, and the `read_only` flag. -/
structure DuckDB where
  tables : List Table
  parquetData : List (String × List Row)
  s3Fail : Option String
  read_only : Bool
deriving DecidableEq, Repr

/-- Catalog lookup. -/
def DuckDB.findTable (db : DuckDB) (t : String) : Option Table :=
  db.tables.find? fun tb => tb.name == t

/-- Replace a table's state in the catalog. -/
def DuckDB.updateTable (db : DuckDB) (t : Table) : DuckDB :=
  { db with tables := db.tables.map fun x => if x.name == t.name then t else x }

/-- `DuckDBClient.get_table_columns`: `PRAGMA table_info` raises a catalog
error on an unknown table; this propagates (logged then re-raised). -/
def DuckDBClient.get_table_columns (db : DuckDB) (t : String) :
    Except PyErr (List String) :=
  match db.findTable t with
  | some tb => .ok tb.columns
  | Option.none => .error (.catalogError t)

/-- `DuckDBClient._get_primary_key`: the declared primary-key column if
any; the method swallows its own failures (`except: … return None`), so an
unknown table yields `None` rather than an error. -/
def DuckDBClient._get_primary_key (db : DuckDB) (t : String) :
    Option String :=
  match db.findTable t with
  | some tb => tb.pk
  | Option.none => Option.none

/-- Column set of a frame: union of row keys, first occurrence first
(pandas column union). -/
def dfColumns (df : DataFrame) : List String :=
  df.foldl (fun acc row =>
    row.foldl (fun acc2 kv =>
      if acc2.contains kv.1 then acc2 else acc2 ++ [kv.1]) acc) []

/-- `df[target_columns]`: per-row projection to the named columns (a key
absent from an individual row reads as NA). -/
def dfSelect (df : DataFrame) (cols : List String) : DataFrame :=
  df.map fun row =>
    cols.map fun c => (c, (row.lookup c).getD (PyVal.scalar PyScalar.none))

/-- `DuckDBClient.read_external_parquet(uris, target_table)`: empty URI
list gives an empty frame (warning, not an error); an S3 failure or an
unreadable URI raises; with a target table the frame is projected to the
table's columns when they are all present, else returned unchanged. -/
def DuckDBClient.read_external_parquet (db : DuckDB) (uris : List String)
    (target_table : Option String) : Except PyErr DataFrame :=
  if uris.isEmpty then .ok []
  else
    match db.s3Fail with
    | some msg => .error (.ioError msg)
    | Option.none =>
      match uris.mapM fun u => db.parquetData.lookup u with
      | Option.none => .error (.ioError "read_parquet")
      | some chunks =>
        let df := chunks.flatten
        match target_table with
        | Option.none => .ok df
        | some t => do
          let target_columns ← DuckDBClient.get_table_columns db t
          Except.ok (if target_columns.all fun c => (dfColumns df).contains c
            then dfSelect df target_columns else df)

/-- A Python value passed as the `avoid_duplicates` parameter.  The
source's signature is `insert_dataframe(self, table_name,
avoid_duplicates=True)` — its docstring documents a `df` parameter that
the signature does not have, so every caller's positional DataFrame
argument binds to `avoid_duplicates`. -/
inductive PyArg where
  | bool (b : Bool)
  | dataframe (df : DataFrame)

/-- Python truthiness of such an argument: `bool(DataFrame)` always raises
(`The truth value of a DataFrame is ambiguous`). -/
def pyTruth : PyArg → Except PyErr Bool
  | .bool b => .ok b
  | .dataframe _ => .error .valueErrorDataFrameTruth

/-- SQL `t.pk = e.pk`: NULL-rejecting equality. -/
def sqlEq : PyVal → PyVal → Bool
  | .scalar PyScalar.none, _ => false
  | _, .scalar PyScalar.none => false
  | a, b => a == b

/-- The left-anti-join row set:
`FROM temp t LEFT JOIN target e ON t.pk = e.pk WHERE e.pk IS NULL` keeps
exactly the staged rows whose key matches no target row. -/
def antiRows (temp : DataFrame) (target : List Row) (pk : String) :
    DataFrame :=
  temp.filter fun r =>
    !(target.any fun er =>
      sqlEq ((r.lookup pk).getD (PyVal.scalar PyScalar.none))
        ((er.lookup pk).getD (PyVal.scalar PyScalar.none)))

/-- Binder resolution of the unqualified `SELECT` list over the
`temp t LEFT JOIN target e` join: a column present on both sides is an
ambiguous reference; one present on neither does not exist.  (This branch
is unreachable from the repository's callers — see `pyTruth` — the binder
checks are modelled ON-clause first, then the SELECT list.) -/
def resolveJoinSelect (cols tempCols tableCols : List String) :
    Except PyErr Unit :=
  match cols.find? fun c => tempCols.contains c && tableCols.contains c with
  | some c => .error (.ambiguousColumn c)
  | Option.none =>
    match cols.find? fun c => !(tempCols.contains c || tableCols.contains c)
      with
    | some c => .error (.binderError c)
    | Option.none => .ok ()

/-- A selected row of the anti-join: temp-side columns read from the
staged row, target-side-only columns are NULL (the join is unmatched). -/
def joinProject (tempCols cols : List String) (r : Row) : Row :=
  cols.map fun c =>
    (c, if tempCols.contains c
      then (r.lookup c).getD (PyVal.scalar PyScalar.none)
      else PyVal.scalar PyScalar.none)

/-- `DuckDBClient.insert_dataframe(table_name, avoid_duplicates=True)`.

The body references the DataFrame by the bare name `df`
(`CREATE TEMPORARY TABLE … AS SELECT * FROM df`), resolved by DuckDB's
Python replacement scan over the frames visible at the `execute` call;
`frameDf` is what that scan finds for `df`.  Inside `insert_dataframe`
no local `df` exists, so under DuckDB's default (current-frame) scan the
callers get `frameDf = none` — a catalog error; a legacy stack-walking
scan would find the caller's `df`, in which case the DataFrame bound to
`avoid_duplicates` still raises at `if avoid_duplicates and …`.  State is
threaded explicitly: the result carries the updated catalog and the
`count_after - count_before` return value. -/
def DuckDBClient.insert_dataframe (db : DuckDB) (table_name : String)
    (avoid_duplicates : PyArg) (frameDf : Option DataFrame) :
    Except PyErr (DuckDB × Int) :=
  if db.read_only then .ok (db, 0)
  else
    match frameDf with
    | Option.none => .error (.catalogError "df")
    | some temp =>
      match db.findTable table_name with
      | Option.none => .error (.catalogError table_name)
      | some tb => do
        let count_before : Int := tb.rows.length
        let dedup ← pyTruth avoid_duplicates
        match
          (if dedup then DuckDBClient._get_primary_key db table_name
            else Option.none) with
        | some pk => do
          let cols ← DuckDBClient.get_table_columns db table_name
          if !(dfColumns temp).contains pk then
            Except.error (.binderError pk)
          else if !tb.columns.contains pk then
            Except.error (.binderError pk)
          else do
            let _ ← resolveJoinSelect cols (dfColumns temp) tb.columns
            let inserted := (antiRows temp tb.rows pk).map
              (joinProject (dfColumns temp) cols)
            let tb2 := { tb with rows := tb.rows ++ inserted }
            let db2 := db.updateTable tb2
            let count_after : Int := tb2.rows.length
            Except.ok (db2, count_after - count_before)
        | Option.none => do
          let cols ← DuckDBClient.get_table_columns db table_name
          match cols.find? fun c => !(dfColumns temp).contains c with
          | some c => Except.error (.binderError c)
          | Option.none =>
            let inserted := temp.map fun r =>
              cols.map fun c =>
                (c, (r.lookup c).getD (PyVal.scalar PyScalar.none))
            let tb2 := { tb with rows := tb.rows ++ inserted }
            let db2 := db.updateTable tb2
            let count_after : Int := tb2.rows.length
            Except.ok (db2, count_after - count_before)

/-- `DataOrchestrator.load_storage_to_database(bucket, prefix, table_name)`
— the spec's `synchronize`.  List parquet URIs (none: return 0), read them
into a staged frame standardized to the target's columns, and, if the
frame is non-empty, call `insert_dataframe(table_name, df)` — positionally,
so the frame binds to `avoid_duplicates`.  `scanAllFrames` selects the
replacement-scan semantics of the installed DuckDB: the caller's local
`df` is only visible to the scan when it walks outer frames. -/
def DataOrchestrator.load_storage_to_database (db : DuckDB)
    (storage : MinioState) (bucket pre table_name : String)
    (scanAllFrames : Bool) : Except PyErr (DuckDB × Int) :=
  do
  let parquet_uris ← MinioClient.get_parquet_uris storage bucket pre
  if parquet_uris.isEmpty then Except.ok (db, 0)
  else do
    let df ← DuckDBClient.read_external_parquet db parquet_uris
      (some table_name)
    if !df.isEmpty then
      DuckDBClient.insert_dataframe db table_name (.dataframe df)
        (if scanAllFrames then some df else Option.none)
    else Except.ok (db, 0)

/-- The synchronization target table of the concrete scenarios: declared
primary key `case_id`. -/
def tableAvian : Table := ⟨"avian_cases", ["case_id"], some "case_id", []⟩

/-- Concrete DuckDB state: the target table plus one staged parquet
object readable at its URI. -/
def dbC : DuckDB :=
  ⟨[tableAvian],
   [("s3://raw/avian_cases/src/year=2023/month=05/day=15/a.parquet",
     [[("case_id", PyVal.scalar (.str "r1"))]])],
   Option.none, false⟩

/-- The staged frame those rows produce. -/
def dfC : DataFrame := [[("case_id", PyVal.scalar (.str "r1"))]]

/-- Concrete object store: one parquet object under the prefix. -/
def minioC : MinioState :=
  ⟨[("raw", "avian_cases/src/year=2023/month=05/day=15/a.parquet")],
   Option.none⟩

/-- C2: `insert_dataframe` as invoked by every caller
(`insert_dataframe(table_name, df)`, the frame binding to
`avoid_duplicates` because the documented `df` parameter is missing from
the signature) raises on both replacement-scan semantics: the bare name
`df` is unbound in the executing frame (catalog error), and even a
stack-walking scan that finds the caller's frame then evaluates
`bool(DataFrame)` (always a `ValueError`).  The documented behaviour —
anti-join dedup and a `count_after - count_before` return — is
unreachable. -/
theorem C2_insert_dataframe_call_always_raises :
    DuckDBClient.insert_dataframe dbC "avian_cases" (.dataframe dfC)
      Option.none = .error (.catalogError "df") ∧
    DuckDBClient.insert_dataframe dbC "avian_cases" (.dataframe dfC)
      (some dfC) = .error .valueErrorDataFrameTruth :=
  ⟨rfl, rfl⟩

/-- C1: the synchronization over a non-empty unchanged prefix never
returns 0 — it never returns at all: with one staged row present,
`load_storage_to_database` raises under either replacement-scan
semantics, on the first call and hence identically on any repeated call
over the unchanged prefix. -/
theorem C1_synchronize_raises_instead_of_zero :
    DataOrchestrator.load_storage_to_database dbC minioC "raw" "avian_cases"
      "avian_cases" false = .error (.catalogError "df") ∧
    DataOrchestrator.load_storage_to_database dbC minioC "raw" "avian_cases"
      "avian_cases" true = .error .valueErrorDataFrameTruth := by
  constructor <;> decide


/-- A failed bind comes from a failed first stage or a failed continuation
on the first stage's result. -/
theorem except_bind_eq_error {ε α β : Type} {x : Except ε α}
    {f : α → Except ε β} {e : ε} (h : (x >>= f) = .error e) :
    x = .error e ∨ ∃ a, x = .ok a ∧ f a = .error e := by
  cases x with
  | error e2 =>
    left
    have hx : (Except.error e2 >>= f) = (Except.error e2 : Except ε β) := rfl
    rw [hx] at h
    injection h with h2
    rw [h2]
  | ok a =>
    right
    exact ⟨a, rfl, h⟩

/-- Listing failures are the driver's `S3Error`, never a wrapper. -/
theorem list_objects_error_not_sync {st : MinioState} {b p : String}
    {e : PyErr} (h : MinioClient.list_objects st b p = .error e) :
    e.isSyncError = false := by
  unfold MinioClient.list_objects at h
  rcases hf : st.fail with _ | msg <;> rw [hf] at h
  · injection h
  · injection h with h2
    subst h2
    rfl

/-- URI-listing failures are the underlying listing failures, unchanged. -/
theorem get_parquet_uris_error_not_sync {st : MinioState} {b p : String}
    {e : PyErr} (h : MinioClient.get_parquet_uris st b p = .error e) :
    e.isSyncError = false := by
  unfold MinioClient.get_parquet_uris at h
  rcases except_bind_eq_error h with h1 | ⟨a, _, hf2⟩
  · unfold MinioClient.list_parquet_files at h1
    rcases except_bind_eq_error h1 with h2 | ⟨a2, _, hf3⟩
    · exact list_objects_error_not_sync h2
    · injection hf3
  · injection hf2

/-- `PRAGMA table_info` failures are catalog errors, never a wrapper. -/
theorem get_table_columns_error_not_sync {db : DuckDB} {t : String}
    {e : PyErr} (h : DuckDBClient.get_table_columns db t = .error e) :
    e.isSyncError = false := by
  unfold DuckDBClient.get_table_columns at h
  rcases hf : db.findTable t with _ | tb <;> rw [hf] at h
  · injection h with h2
    subst h2
    rfl
  · injection h

/-- Join binder failures are binder errors, never a wrapper. -/
theorem resolveJoinSelect_error_not_sync {cols tempCols tableCols :
    List String} {e : PyErr}
    (h : resolveJoinSelect cols tempCols tableCols = .error e) :
    e.isSyncError = false := by
  unfold resolveJoinSelect at h
  split at h
  · injection h with h2
    subst h2
    rfl
  · split at h
    · injection h with h2
      subst h2
      rfl
    · injection h

/-- Remote-read failures are the engine's I/O or catalog errors, never a
wrapper. -/
theorem read_external_parquet_error_not_sync {db : DuckDB}
    {uris : List String} {tt : Option String} {e : PyErr}
    (h : DuckDBClient.read_external_parquet db uris tt = .error e) :
    e.isSyncError = false := by
  unfold DuckDBClient.read_external_parquet at h
  split at h
  · injection h
  · split at h
    · injection h with h2
      subst h2
      rfl
    · split at h
      · injection h with h2
        subst h2
        rfl
      · split at h
        · injection h
        · rcases except_bind_eq_error h with h1 | ⟨a, _, hf2⟩
          · exact get_table_columns_error_not_sync h1
          · injection hf2

/-- `pyTruth` failures are the pandas truthiness `ValueError`, never a
wrapper. -/
theorem pyTruth_error_not_sync {a : PyArg} {e : PyErr}
    (h : pyTruth a = .error e) : e.isSyncError = false := by
  unfold pyTruth at h
  rcases a with b | df'
  · injection h
  · injection h with h2
    subst h2
    rfl

/-- `insert_dataframe` failures are catalog, binder or truthiness errors,
never a wrapper. -/
theorem insert_dataframe_error_not_sync {db : DuckDB} {t : String}
    {a : PyArg} {fd : Option DataFrame} {e : PyErr}
    (h : DuckDBClient.insert_dataframe db t a fd = .error e) :
    e.isSyncError = false := by
  unfold DuckDBClient.insert_dataframe at h
  split at h
  · injection h
  · split at h
    · injection h with h2
      subst h2
      rfl
    · split at h
      · injection h with h2
        subst h2
        rfl
      · rcases except_bind_eq_error h with h1 | ⟨dedup, _, hrest⟩
        · exact pyTruth_error_not_sync h1
        · split at hrest
          · rcases except_bind_eq_error hrest with h1 | ⟨cols, _, hif⟩
            · exact get_table_columns_error_not_sync h1
            · split at hif
              · injection hif with h2
                subst h2
                rfl
              · split at hif
                · injection hif with h2
                  subst h2
                  rfl
                · rcases except_bind_eq_error hif with h1 | ⟨u, _, hf2⟩
                  · exact resolveJoinSelect_error_not_sync h1
                  · injection hf2
          · rcases except_bind_eq_error hrest with h1 | ⟨cols, _, hfind⟩
            · exact get_table_columns_error_not_sync h1
            · split at hfind
              · injection hfind with h2
                subst h2
                rfl
              · injection hfind

/-- C5 amended: any failure (I/O or query) during listing, staged-parquet
reading or insertion aborts the whole synchronization, and the caller sees
the underlying exception itself, propagated unchanged — never silently
swallowed, never a partial success, and never a `SynchronizationError`
wrapper (no such class exists in the source; every step logs and
re-raises). -/
theorem C5_failures_propagate_unwrapped :
    (∀ (db : DuckDB) (st : MinioState) (bucket pre t : String)
        (scan : Bool) (e : PyErr),
      MinioClient.get_parquet_uris st bucket pre = .error e →
      DataOrchestrator.load_storage_to_database db st bucket pre t scan =
        .error e) ∧
    (∀ (db : DuckDB) (st : MinioState) (bucket pre t : String)
        (scan : Bool) (e : PyErr) (uris : List String),
      MinioClient.get_parquet_uris st bucket pre = .ok uris →
      uris.isEmpty = false →
      DuckDBClient.read_external_parquet db uris (some t) = .error e →
      DataOrchestrator.load_storage_to_database db st bucket pre t scan =
        .error e) ∧
    (∀ (db : DuckDB) (st : MinioState) (bucket pre t : String)
        (scan : Bool) (e : PyErr) (uris : List String) (df : DataFrame),
      MinioClient.get_parquet_uris st bucket pre = .ok uris →
      uris.isEmpty = false →
      DuckDBClient.read_external_parquet db uris (some t) = .ok df →
      df.isEmpty = false →
      DuckDBClient.insert_dataframe db t (.dataframe df)
        (if scan then some df else Option.none) = .error e →
      DataOrchestrator.load_storage_to_database db st bucket pre t scan =
        .error e) ∧
    (∀ (db : DuckDB) (st : MinioState) (bucket pre t : String)
        (scan : Bool) (e : PyErr),
      DataOrchestrator.load_storage_to_database db st bucket pre t scan =
        .error e →
      e.isSyncError = false) := by
  refine ⟨?_, ?_, ?_, ?_⟩
  · intro db st bucket pre t scan e hget
    unfold DataOrchestrator.load_storage_to_database
    rw [hget]
    rfl
  · intro db st bucket pre t scan e uris hget hne hread
    unfold DataOrchestrator.load_storage_to_database
    rw [hget]
    simp only [except_bind_ok, hne, Bool.false_eq_true, if_false, hread]
    rfl
  · intro db st bucket pre t scan e uris df hget hne hread hdf hins
    unfold DataOrchestrator.load_storage_to_database
    rw [hget]
    simp only [except_bind_ok, hne, Bool.false_eq_true, if_false, hread]
    simp only [except_bind_ok, hdf, Bool.not_false, if_true]
    exact hins
  · intro db st bucket pre t scan e h
    unfold DataOrchestrator.load_storage_to_database at h
    rcases except_bind_eq_error h with h1 | ⟨uris, _, hrest⟩
    · exact get_parquet_uris_error_not_sync h1
    · split at hrest
      · injection hrest
      · rcases except_bind_eq_error hrest with h1 | ⟨df, _, hrest2⟩
        · exact read_external_parquet_error_not_sync h1
        · split at hrest2
          · exact insert_dataframe_error_not_sync hrest2
          · injection hrest2

/-- The object store in a failing state: every S3 call raises. -/
def minioFail : MinioState := ⟨[], some "connection refused"⟩

/-- C5 counterexample: at a concrete failing input the caller observes the
raw underlying `S3Error`, not a `SynchronizationError` wrapping it as the
claim states — no step of the source wraps errors. -/
theorem C5_counterexample_raw_error_not_wrapped :
    DataOrchestrator.load_storage_to_database dbC minioFail "raw"
      "avian_cases" "avian_cases" false =
        .error (.s3Error "connection refused") ∧
    PyErr.isSyncError (.s3Error "connection refused") = false := by
  constructor <;> decide

/-- C5 witness: each propagation clause applied at a concrete input. -/
theorem C5_failures_propagate_unwrapped_witness :
    DataOrchestrator.load_storage_to_database dbC minioFail "raw"
      "avian_cases" "avian_cases" true =
        .error (.s3Error "connection refused") ∧
    DataOrchestrator.load_storage_to_database
      { dbC with s3Fail := some "timeout" } minioC "raw" "avian_cases"
      "avian_cases" true = .error (.ioError "timeout") ∧
    DataOrchestrator.load_storage_to_database dbC minioC "raw" "avian_cases"
      "avian_cases" true = .error .valueErrorDataFrameTruth ∧
    PyErr.isSyncError .valueErrorDataFrameTruth = false :=
  ⟨C5_failures_propagate_unwrapped.1 dbC minioFail "raw" "avian_cases"
      "avian_cases" true (.s3Error "connection refused") (by decide),
   C5_failures_propagate_unwrapped.2.1 { dbC with s3Fail := some "timeout" }
      minioC "raw" "avian_cases" "avian_cases" true (.ioError "timeout")
      ["s3://raw/avian_cases/src/year=2023/month=05/day=15/a.parquet"]
      (by decide) (by decide) (by decide),
   C5_failures_propagate_unwrapped.2.2.1 dbC minioC "raw" "avian_cases"
      "avian_cases" true .valueErrorDataFrameTruth
      ["s3://raw/avian_cases/src/year=2023/month=05/day=15/a.parquet"] dfC
      (by decide) (by decide) (by decide) (by decide) (by decide),
   C5_failures_propagate_unwrapped.2.2.2 dbC minioC "raw" "avian_cases"
      "avian_cases" true .valueErrorDataFrameTruth (by decide)⟩
